import Mathlib

/-!
Verification of the `bcp_utils` package: per-SQL-type binary encoders
(`bcp_utils/converters/functions.py`), the BCP XML format-descriptor
generator (`bcp_utils/xml_builder.py`), and the native bulk-insert
pipeline (`bcp_utils/bulk_insert.py`, `bulk_insert_bcp_native`).

Modelling conventions:
- A byte is a `Nat` kept below 256 by construction; a byte record is a
  `List Nat`.
- Python exceptions are modelled by the `Except PyError` monad; raising
  an exception aborts the computation with no partial output, matching
  Python's exception propagation.
- A pandas Series of values with possible nulls is a `List (Option v)`:
  `none` models a value for which `pd.isna` is true.
- Python floats are represented by their IEEE-754 bit pattern as a
  `Nat`; `struct.pack` with a float format writes exactly the bytes of
  that pattern in little-endian order, which is how the encoders below
  are stated.
-/

namespace BcpUtils

set_option autoImplicit false

/-- Python exception classes raised by the source code. -/
inductive PyError where
  | valueError : String → PyError
  | typeError : String → PyError
  | notImplementedError : String → PyError
  | unicodeEncodeError : String → PyError
  | structError : String → PyError
  | overflowError : String → PyError
deriving DecidableEq, Repr

/-- Little-endian byte list of width `w` for the natural number `n`
(the low `8*w` bits of `n`), as produced by `struct.pack` /
`numpy.tobytes` on a little-endian machine. -/
def leBytes : Nat → Nat → List Nat
  | 0, _ => []
  | w + 1, n => n % 256 :: leBytes w (n / 256)

/-- Two's-complement representation of an integer in `w` bytes, as a
natural number below `2^(8*w)`. -/
def toTwos (w : Nat) (i : Int) : Nat :=
  (i % ((2 : Int) ^ (8 * w))).toNat

/-- `struct.pack` of a signed integer, little-endian, `w` bytes wide
(the caller checks the range, as `struct` does). -/
def packIntLE (w : Nat) (i : Int) : List Nat :=
  leBytes w (toTwos w i)

/-- Sequence a fallible per-value converter over a whole series,
aborting at the first failure (Python: the first raised exception
propagates out of the loop). -/
def mapE {α β : Type} (f : α → Except PyError β) : List α → Except PyError (List β)
  | [] => .ok []
  | x :: xs => do
      let y ← f x
      let ys ← mapE f xs
      .ok (y :: ys)

/-! ### Fixed-width native converters (`converters/functions.py`)

Each Python converter loops over the series; per value it first tests
`pd.isna(val)` and appends the one-byte null sentinel `0xFF`, otherwise
it coerces the value and appends `bytes([non_null_prefix]) + payload`.
The per-value body is modelled by `convert_*_val`; the series-level
function is `mapE` over it. -/

/-- Per-value body of `convert_int_to_bcp`: null gives `[0xFF]`,
otherwise `[0x04]` then `struct.pack("<i", iv)`.  Values outside the
Int32 range raise (pandas `astype("Int32")` / `struct.pack` reject
them). -/
def convert_int_val : Option Int → Except PyError (List Nat)
  | none => .ok [0xFF]
  | some iv =>
      if -(2 ^ 31 : Int) ≤ iv ∧ iv < 2 ^ 31 then
        .ok (0x04 :: packIntLE 4 iv)
      else
        .error (.overflowError "value out of range for Int32")

/-- Per-value body of `convert_bigint_to_bcp`: null gives `[0xFF]`,
otherwise `[0x08]` then `struct.pack("<q", iv)`. -/
def convert_bigint_val : Option Int → Except PyError (List Nat)
  | none => .ok [0xFF]
  | some iv =>
      if -(2 ^ 63 : Int) ≤ iv ∧ iv < 2 ^ 63 then
        .ok (0x08 :: packIntLE 8 iv)
      else
        .error (.overflowError "value out of range for Int64")

/-- Per-value body of `convert_smallint_to_bcp`: null gives `[0xFF]`,
otherwise `[0x02]` then `struct.pack("<h", iv)`. -/
def convert_smallint_val : Option Int → Except PyError (List Nat)
  | none => .ok [0xFF]
  | some iv =>
      if -(2 ^ 15 : Int) ≤ iv ∧ iv < 2 ^ 15 then
        .ok (0x02 :: packIntLE 2 iv)
      else
        .error (.overflowError "value out of range for Int16")

/-- Per-value body of `convert_tinyint_to_bcp`: null gives `[0xFF]`,
otherwise `[0x01]` then `struct.pack("<B", iv)` (unsigned byte). -/
def convert_tinyint_val : Option Int → Except PyError (List Nat)
  | none => .ok [0xFF]
  | some iv =>
      if 0 ≤ iv ∧ iv < 2 ^ 8 then
        .ok (0x01 :: leBytes 1 iv.toNat)
      else
        .error (.overflowError "value out of range for UInt8")

/-- Per-value body of `convert_bit_to_bcp`: null gives `[0xFF]`,
otherwise `[0x01]` then one byte that is 1 or 0 by the truthiness of
the value (`1 if bool(val) else 0`); this never raises. -/
def convert_bit_val : Option Bool → Except PyError (List Nat)
  | none => .ok [0xFF]
  | some b => .ok (0x01 :: [if b then 1 else 0])

/-- Per-value body of `convert_float_to_bcp`: null gives `[0xFF]`,
otherwise `[0x08]` then `struct.pack("<d", fv)` — the 8 bytes of the
IEEE-754 double bit pattern, little-endian. -/
def convert_float_val : Option Nat → Except PyError (List Nat)
  | none => .ok [0xFF]
  | some bits => .ok (0x08 :: leBytes 8 bits)

/-- Per-value body of `convert_real_to_bcp`: null gives `[0xFF]`,
otherwise `[0x04]` then `struct.pack("<f", fv)` — the 4 bytes of the
IEEE-754 single bit pattern, little-endian. -/
def convert_real_val : Option Nat → Except PyError (List Nat)
  | none => .ok [0xFF]
  | some bits => .ok (0x04 :: leBytes 4 bits)

/-! ### Proleptic-Gregorian day counts (Python `datetime.date.toordinal`) -/

/-- Python's `calendar.isleap` / `datetime._is_leap`. -/
def isLeapYear (y : Nat) : Bool :=
  y % 4 == 0 && (y % 100 != 0 || y % 400 == 0)

/-- Python's `datetime._days_in_month` (month 1–12). -/
def daysInMonth (y m : Nat) : Nat :=
  if m = 2 then (if isLeapYear y then 29 else 28)
  else if m = 4 ∨ m = 6 ∨ m = 9 ∨ m = 11 then 30
  else 31

/-- Python's `datetime._days_before_month`: days in year `y` preceding
the first of month `m`. -/
def daysBeforeMonth (y : Nat) : Nat → Nat
  | 0 => 0
  | 1 => 0
  | m + 2 => daysBeforeMonth y (m + 1) + daysInMonth y (m + 1)

/-- Python's `datetime._days_before_year`: days before January 1 of
year `y` counting from ordinal day 0. -/
def daysBeforeYear (y : Nat) : Nat :=
  (y - 1) * 365 + (y - 1) / 4 - (y - 1) / 100 + (y - 1) / 400

/-- Python's `datetime.date.toordinal`: 0001-01-01 is ordinal 1. -/
def toOrdinal (y m d : Nat) : Nat :=
  daysBeforeYear y + daysBeforeMonth y m + d

/-- A Python `datetime.date` (what `pd.Timestamp(val).normalize().date()`
yields): year ≥ 1, a valid month and day. -/
structure PyDate where
  year : Nat
  month : Nat
  day : Nat
deriving DecidableEq, Repr

/-- A pandas `Timestamp` split as the source splits it: the calendar
date of `ts.normalize()` plus `(ts - midnight).value`, the nanoseconds
elapsed since that midnight. -/
structure PyDateTime where
  year : Nat
  month : Nat
  day : Nat
  nanosSinceMidnight : Nat
deriving DecidableEq, Repr

/-- Per-value body of `convert_date_to_bcp`: null gives `[0xFF]`;
otherwise `days = d.toordinal() - date(1,1,1).toordinal()` (the
signed day count since 0001-01-01, never negative for a Python date),
packed with `struct.pack("<i", days)` and truncated to its low three
bytes `payload_full[:3]`, behind the prefix byte `0x03`. -/
def convert_date_val : Option PyDate → Except PyError (List Nat)
  | none => .ok [0xFF]
  | some dt =>
      let days := toOrdinal dt.year dt.month dt.day - 1
      .ok (0x03 :: (leBytes 4 days).take 3)

/-- Per-value body of `convert_datetime2_to_bcp` (scale 7): null gives
`[0xFF]`; otherwise the 8-byte payload is the 5 low bytes of the
little-endian count of 100 ns ticks since midnight
(`struct.pack("<Q", ticks_100ns)[:5]`) followed by the 3 low bytes of
the little-endian day count (`struct.pack("<i", days)[:3]`), behind
the prefix byte `0x08`. -/
def convert_datetime2_val : Option PyDateTime → Except PyError (List Nat)
  | none => .ok [0xFF]
  | some ts =>
      let days := toOrdinal ts.year ts.month ts.day - 1
      let dateBytes := (leBytes 4 days).take 3
      let ticks := ts.nanosSinceMidnight / 100
      let timeBytes := (leBytes 8 ticks).take 5
      .ok (0x08 :: (timeBytes ++ dateBytes))

/-- `convert_datetime2_to_bcp(series, scale=7)`: any scale other than 7
raises `NotImplementedError` before the loop over the series starts;
with scale 7 every value is converted. -/
def convert_datetime2_to_bcp (series : List (Option PyDateTime)) (scale : Nat) :
    Except PyError (List (List Nat)) :=
  if scale ≠ 7 then
    .error (.notImplementedError "convert_datetime2_to_bcp currently assumes DATETIME2(7).")
  else
    mapE convert_datetime2_val series

/-! ### Decimal rendering (Python `str(int)`) used by the character
converters when handed a non-string value -/

/-- Decimal digits of a natural number, most significant first,
computed with a fuel argument for structural recursion; `n + 1` units
of fuel always suffice because the argument shrinks by a factor of ten
per step. -/
def natDigitsAux : Nat → Nat → List Nat
  | 0, _ => []
  | fuel + 1, n =>
      if n < 10 then [n]
      else natDigitsAux fuel (n / 10) ++ [n % 10]

/-- Decimal digits of a natural number, most significant first. -/
def natDigits (n : Nat) : List Nat := natDigitsAux (n + 1) n

/-- The ASCII character of a decimal digit. -/
def decDigitChar (d : Nat) : Char := Char.ofNat (48 + d)

/-- Python `str` of an `int`: an optional minus sign then the decimal
digits of the magnitude. -/
def pyStrOfInt (i : Int) : String :=
  if i < 0 then String.mk ('-' :: (natDigits i.natAbs).map decDigitChar)
  else String.mk ((natDigits i.toNat).map decDigitChar)

/-- A scalar handed to the VARCHAR/NVARCHAR converters: the source
calls `str(s)` on whatever it receives, so the model carries strings
and (as representative non-strings) integers. -/
inductive PyVal where
  | str : String → PyVal
  | int : Int → PyVal
deriving DecidableEq, Repr

/-- Python `str()` of a `PyVal`. -/
def pyStr : PyVal → String
  | .str s => s
  | .int n => pyStrOfInt n

/-! ### Character converters -/

/-- Python `s.encode("latin1")`: one byte per character for code
points below 256, `UnicodeEncodeError` otherwise. -/
def latin1EncodeChars : List Char → Except PyError (List Nat)
  | [] => .ok []
  | c :: cs =>
      if c.toNat < 256 then
        match latin1EncodeChars cs with
        | .error e => .error e
        | .ok bs => .ok (c.toNat :: bs)
      else
        .error (.unicodeEncodeError "latin-1 codec cannot encode character")

/-- UTF-16 little-endian bytes of one character: two bytes for code
points in the basic plane, a surrogate pair (four bytes) above it. -/
def utf16leChar (c : Char) : List Nat :=
  let n := c.toNat
  if n < 0x10000 then [n % 256, n / 256]
  else
    let u := n - 0x10000
    let hi := 0xD800 + u / 0x400
    let lo := 0xDC00 + u % 0x400
    [hi % 256, hi / 256, lo % 256, lo / 256]

/-- Python `s.encode("utf-16-le")`; total on well-formed strings. -/
def utf16leEncodeChars (cs : List Char) : List Nat :=
  (cs.map utf16leChar).flatten

/-- `struct.pack("<H", n)`: two little-endian bytes; raises
`struct.error` when `n` does not fit in 16 bits. -/
def pack_u16 (n : Nat) : Except PyError (List Nat) :=
  if n < 2 ^ 16 then .ok (leBytes 2 n)
  else .error (.structError "H format requires 0 <= number <= 65535")

/-- Per-row body of `convert_varchar_to_bcp` (`process_row`, default
`encoding="latin1"`): null gives `[0xFF, 0xFF]`; else `str(s)`; the
empty string gives `[0x00, 0x00]`; else a 2-byte little-endian length
prefix followed by the latin-1 bytes. -/
def convert_varchar_val (v : Option PyVal) : Except PyError (List Nat) :=
  match v with
  | none => .ok [0xFF, 0xFF]
  | some s =>
      let sStr := pyStr s
      if sStr.data.length = 0 then .ok [0x00, 0x00]
      else
        match latin1EncodeChars sStr.data with
        | .error e => .error e
        | .ok dataBytes =>
            match pack_u16 dataBytes.length with
            | .error e => .error e
            | .ok lenPfx => .ok (lenPfx ++ dataBytes)

/-- Per-row body of `convert_nvarchar_to_bcp` (`process_row`, default
`encoding="utf-16-le"`): null gives `[0xFF, 0xFF]`; else `str(s)`; the
empty string gives `[0x00, 0x00]`; else a 2-byte little-endian length
prefix followed by the UTF-16LE bytes. -/
def convert_nvarchar_val (v : Option PyVal) : Except PyError (List Nat) :=
  match v with
  | none => .ok [0xFF, 0xFF]
  | some s =>
      let sStr := pyStr s
      if sStr.data.length = 0 then .ok [0x00, 0x00]
      else
        let dataBytes := utf16leEncodeChars sStr.data
        match pack_u16 dataBytes.length with
        | .error e => .error e
        | .ok lenPfx => .ok (lenPfx ++ dataBytes)

/-! ### Geometry converter -/

/-- Python whitespace characters recognised by `str.strip` and
`str.split` with no argument. -/
def isPySpace (c : Char) : Bool :=
  c == ' ' || c == '\t' || c == '\n' || c == '\r' || c == '\x0b' || c == '\x0c'

/-- Python `s.strip()`: remove leading and trailing whitespace. -/
def pyStrip (s : List Char) : List Char :=
  ((s.dropWhile isPySpace).reverse.dropWhile isPySpace).reverse

/-- `if s.startswith(("0x", "0X")): s = s[2:]`. -/
def dropHexMarker : List Char → List Char
  | '0' :: 'x' :: rest => rest
  | '0' :: 'X' :: rest => rest
  | s => s

/-- `"".join(s.split())`: delete every whitespace character. -/
def removeWhitespace (s : List Char) : List Char :=
  s.filter (fun c => !isPySpace c)

/-- Value of one hexadecimal digit, if any. -/
def hexDigitVal (c : Char) : Option Nat :=
  if '0' ≤ c ∧ c ≤ '9' then some (c.toNat - 48)
  else if 'a' ≤ c ∧ c ≤ 'f' then some (c.toNat - 87)
  else if 'A' ≤ c ∧ c ≤ 'F' then some (c.toNat - 55)
  else none

/-- `bytes.fromhex` on a whitespace-free string: pairs of hex digits;
an odd length or a non-hex character raises `ValueError` (modelled as
`none`).  The source has already removed all whitespace before the
call, so the space-skipping of `fromhex` itself is unreachable. -/
def fromHexChars : List Char → Option (List Nat)
  | [] => some []
  | [_] => none
  | c1 :: c2 :: rest => do
      let h ← hexDigitVal c1
      let l ← hexDigitVal c2
      let bs ← fromHexChars rest
      some ((16 * h + l) :: bs)

/-- A scalar handed to the geometry converter: raw bytes
(`bytes`/`bytearray`/`memoryview`), a string, or a value of any other
type, which carries its type name for the error message. -/
inductive GeomVal where
  | bytes : List Nat → GeomVal
  | str : String → GeomVal
  | other : String → GeomVal
deriving DecidableEq, Repr

/-- Per-value body of `convert_geometry_to_bcp`: null gives
`np.array(-1, dtype="<i4").tobytes()` = `[0xFF, 0xFF, 0xFF, 0xFF]`;
bytes-like values are used as the payload directly; strings are
stripped, the optional `0x`/`0X` marker removed, internal whitespace
deleted and the rest decoded with `bytes.fromhex` (`ValueError` when
that fails); any other type raises `TypeError` naming the received
type.  A non-null record is the 4-byte little-endian payload length
followed by the payload. -/
def convert_geometry_val (v : Option GeomVal) : Except PyError (List Nat) :=
  match v with
  | none => .ok [0xFF, 0xFF, 0xFF, 0xFF]
  | some (.bytes b) => .ok (leBytes 4 b.length ++ b)
  | some (.str sv) =>
      let s1 := pyStrip sv.data
      let s2 := dropHexMarker s1
      let s3 := removeWhitespace s2
      match fromHexChars s3 with
      | some payload => .ok (leBytes 4 payload.length ++ payload)
      | none =>
          .error (.valueError "Invalid geometry value. Expected WKB in hex or raw bytes.")
  | some (.other tyName) =>
      .error (.typeError
        ("Invalid type for geometry. Expected bytes/bytearray/memoryview or hex string. Received: "
          ++ tyName))

/-! ### Series-level converters (the functions of `BCP_CONVERTER_MAP`) -/

def convert_int_to_bcp (series : List (Option Int)) : Except PyError (List (List Nat)) :=
  mapE convert_int_val series

def convert_bigint_to_bcp (series : List (Option Int)) : Except PyError (List (List Nat)) :=
  mapE convert_bigint_val series

def convert_smallint_to_bcp (series : List (Option Int)) : Except PyError (List (List Nat)) :=
  mapE convert_smallint_val series

def convert_tinyint_to_bcp (series : List (Option Int)) : Except PyError (List (List Nat)) :=
  mapE convert_tinyint_val series

def convert_bit_to_bcp (series : List (Option Bool)) : Except PyError (List (List Nat)) :=
  mapE convert_bit_val series

def convert_float_to_bcp (series : List (Option Nat)) : Except PyError (List (List Nat)) :=
  mapE convert_float_val series

def convert_real_to_bcp (series : List (Option Nat)) : Except PyError (List (List Nat)) :=
  mapE convert_real_val series

def convert_date_to_bcp (series : List (Option PyDate)) : Except PyError (List (List Nat)) :=
  mapE convert_date_val series

def convert_varchar_to_bcp (series : List (Option PyVal)) : Except PyError (List (List Nat)) :=
  mapE convert_varchar_val series

def convert_nvarchar_to_bcp (series : List (Option PyVal)) : Except PyError (List (List Nat)) :=
  mapE convert_nvarchar_val series

def convert_geometry_to_bcp (series : List (Option GeomVal)) : Except PyError (List (List Nat)) :=
  mapE convert_geometry_val series

/-! ### Format-descriptor generator (`xml_builder.py`)

`generate_bcp_xml` is modelled structurally: it returns the ordered
list of FIELD elements and the ordered list of COLUMN elements that the
source serialises into the BCPFORMAT document.  The XML text rendering
(`ET.indent`, `ET.tostring`, the fixed declaration line) carries no
information beyond these lists and is not needed by any claim. -/

/-- One entry of `BCP_NATIVE_TYPE_MAP`. -/
structure TypeMapping where
  field_type : String
  prefixLength : Nat
  column_type : String
deriving DecidableEq, Repr

/-- `BCP_NATIVE_TYPE_MAP` from `xml_builder.py`, verbatim.  Note that
it has no entry for GEOMETRY, although `BCP_CONVERTER_MAP` does. -/
def BCP_NATIVE_TYPE_MAP : List (String × TypeMapping) :=
  [("BIGINT", ⟨"NativePrefix", 1, "SQLBIGINT"⟩),
   ("INT", ⟨"NativePrefix", 1, "SQLINT"⟩),
   ("SMALLINT", ⟨"NativePrefix", 1, "SQLSMALLINT"⟩),
   ("TINYINT", ⟨"NativePrefix", 1, "SQLTINYINT"⟩),
   ("BIT", ⟨"NativePrefix", 1, "SQLBIT"⟩),
   ("FLOAT", ⟨"NativePrefix", 1, "SQLFLT8"⟩),
   ("REAL", ⟨"NativePrefix", 1, "SQLFLT4"⟩),
   ("DATE", ⟨"NativePrefix", 1, "SQLDATE"⟩),
   ("DATETIME2", ⟨"NativePrefix", 1, "SQLDATETIME2"⟩),
   ("VARCHAR", ⟨"CharPrefix", 2, "SQLVARYCHAR"⟩),
   ("NVARCHAR", ⟨"NCharPrefix", 2, "SQLNVARCHAR"⟩)]

/-- ASCII upper-casing of one character (`str.upper` on the type tags
used here, which are ASCII). -/
def pyUpperChar (c : Char) : Char :=
  if 'a' ≤ c ∧ c ≤ 'z' then Char.ofNat (c.toNat - 32) else c

/-- `str.upper()` on an ASCII string. -/
def pyUpper (s : String) : String := String.mk (s.data.map pyUpperChar)

/-- One column of the `table_schema` dict:
`info['type']` and `info.get('max_length')`. -/
structure ColInfo where
  type_ : String
  max_length : Option Nat
deriving DecidableEq, Repr

/-- A FIELD element of the RECORD list: `ID`, `xsi:type`,
`PREFIX_LENGTH`, and for character fields `MAX_LENGTH` and
`COLLATION`. -/
structure FieldDef where
  id : Nat
  xsiType : String
  prefixLength : Nat
  maxLength : Option Nat
  collation : Option String
deriving DecidableEq, Repr

/-- A COLUMN element of the ROW list: `SOURCE`, `NAME`, `xsi:type`. -/
structure ColumnDef where
  source : Nat
  name : String
  xsiType : String
deriving DecidableEq, Repr

/-- The default `collation` argument of `generate_bcp_xml`. -/
def DEFAULT_COLLATION : String := "SQL_Latin1_General_CP1_CI_AS"

/-- The per-column FIELD construction inside the loop of
`generate_bcp_xml`: native fields get `xsi:type` and `PREFIX_LENGTH`;
character fields additionally need `max_length` (a `ValueError` when
absent) and carry the collation; any other field kind in the mapping
would be rejected. -/
def mkFieldDef (fieldId : Nat) (colName sqlType : String) (m : TypeMapping)
    (maxLen : Option Nat) (collation : String) : Except PyError FieldDef :=
  if m.field_type = "NativePrefix" then
    .ok ⟨fieldId, "NativePrefix", m.prefixLength, none, none⟩
  else if m.field_type = "CharPrefix" ∨ m.field_type = "NCharPrefix" then
    match maxLen with
    | none =>
        .error (.valueError ("max_length is required for " ++ sqlType ++ " column " ++ colName))
    | some ml => .ok ⟨fieldId, m.field_type, m.prefixLength, some ml, some collation⟩
  else
    .error (.valueError ("Unsupported FIELD type " ++ m.field_type ++ " for column " ++ colName))

/-- The loop of `generate_bcp_xml` over `table_schema.items()`, with
the running 1-based `field_id`.  A raised exception propagates: no
partial descriptor is ever returned. -/
def generate_bcp_xml_loop (collation : String) :
    List (String × ColInfo) → Nat → Except PyError (List FieldDef × List ColumnDef)
  | [], _ => .ok ([], [])
  | (colName, info) :: rest, fieldId =>
      match BCP_NATIVE_TYPE_MAP.lookup (pyUpper info.type_) with
      | none => .error (.valueError ("Unsupported SQL type for BCP: " ++ pyUpper info.type_))
      | some m =>
          match mkFieldDef fieldId colName (pyUpper info.type_) m info.max_length collation with
          | .error e => .error e
          | .ok f =>
              match generate_bcp_xml_loop collation rest (fieldId + 1) with
              | .error e => .error e
              | .ok (fs, cs) => .ok (f :: fs, (⟨fieldId, colName, m.column_type⟩ : ColumnDef) :: cs)

/-- `generate_bcp_xml(table_schema)` with the default collation:
the ordered FIELD and COLUMN lists of the descriptor. -/
def generate_bcp_xml (schema : List (String × ColInfo)) :
    Except PyError (List FieldDef × List ColumnDef) :=
  generate_bcp_xml_loop DEFAULT_COLLATION schema 1

/-! ### Native bulk-insert pipeline (`bulk_insert.py`,
`bulk_insert_bcp_native` up to the hand-off to the external `bcp`
process, which is out of core scope) -/

/-- The key set of `BCP_CONVERTER_MAP` in
`converters/functions.py` — note GEOMETRY is present here. -/
def BCP_CONVERTER_MAP_keys : List String :=
  ["INT", "BIGINT", "SMALLINT", "TINYINT", "BIT", "FLOAT", "REAL", "DATE",
   "DATETIME2", "VARCHAR", "NVARCHAR", "GEOMETRY"]

/-- One DataFrame column, tagged by the scalar kind it holds.  Floats
are carried as IEEE-754 bit patterns, texts as `PyVal` (strings or
representative non-strings), geometry values as `GeomVal`. -/
inductive ColumnData where
  | ints : List (Option Int) → ColumnData
  | bools : List (Option Bool) → ColumnData
  | floats : List (Option Nat) → ColumnData
  | dates : List (Option PyDate) → ColumnData
  | datetimes : List (Option PyDateTime) → ColumnData
  | texts : List (Option PyVal) → ColumnData
  | geoms : List (Option GeomVal) → ColumnData

/-- `converter_func(df[col_name])`: dispatch through
`BCP_CONVERTER_MAP` and run the converter on the column.  Pairings of
a tag with column data of a kind the converter would first have to
coerce through pandas (for example integer data in a DATE column) are
not exercised by any claim and are modelled as a coercion failure. -/
def apply_converter (sqlType : String) (cd : ColumnData) : Except PyError (List (List Nat)) :=
  match sqlType, cd with
  | "INT", .ints vs => convert_int_to_bcp vs
  | "BIGINT", .ints vs => convert_bigint_to_bcp vs
  | "SMALLINT", .ints vs => convert_smallint_to_bcp vs
  | "TINYINT", .ints vs => convert_tinyint_to_bcp vs
  | "BIT", .bools vs => convert_bit_to_bcp vs
  | "FLOAT", .floats vs => convert_float_to_bcp vs
  | "REAL", .floats vs => convert_real_to_bcp vs
  | "DATE", .dates vs => convert_date_to_bcp vs
  | "DATETIME2", .datetimes vs => convert_datetime2_to_bcp vs 7
  | "VARCHAR", .texts vs => convert_varchar_to_bcp vs
  | "NVARCHAR", .texts vs => convert_nvarchar_to_bcp vs
  | "GEOMETRY", .geoms vs => convert_geometry_to_bcp vs
  | _, _ => .error (.typeError "pandas dtype coercion outside the modelled pairings")

/-- The column-conversion loop of `bulk_insert_bcp_native`: for each
schema column in order, look the converter up (a `ValueError` when the
tag has none), check the DataFrame has the column (a `ValueError`
otherwise), and convert.  The first exception aborts the loop. -/
def convert_columns (df : List (String × ColumnData)) :
    List (String × ColInfo) → Except PyError (List (List (List Nat)))
  | [] => .ok []
  | (colName, info) :: rest =>
      if (BCP_CONVERTER_MAP_keys.contains (pyUpper info.type_)) = false then
        .error (.valueError ("No BCP converter found for SQL type: " ++ pyUpper info.type_))
      else
        match df.lookup colName with
        | none =>
            .error (.valueError ("Column " ++ colName ++ " from schema not found in DataFrame."))
        | some cd =>
            match apply_converter (pyUpper info.type_) cd with
            | .error e => .error e
            | .ok arr =>
                match convert_columns df rest with
                | .error e => .error e
                | .ok restArrs => .ok (arr :: restArrs)

/-- `np.hstack` of the per-column record vectors (an N-row, C-column
object matrix) followed by C-order `ravel()`: the records in row-major
order.  Recursion over the row count: the first output row is the head
of every column, the rest is the same traversal of the tails. -/
def hstack_ravel : Nat → List (List (List Nat)) → List (List Nat)
  | 0, _ => []
  | n + 1, cols => cols.filterMap List.head? ++ hstack_ravel n (cols.map List.tail)

/-- `b''.join(bcp_array.ravel())`: concatenate, with no separators, the
records of the row-major traversal.  `np.hstack` requires the columns
to share one length, read off the first column. -/
def build_payload (cols : List (List (List Nat))) : List Nat :=
  (hstack_ravel (cols.headD []).length cols).flatten

/-- The data-preparation core of `bulk_insert_bcp_native`: generate the
format descriptor from the schema alone, then convert every column,
then assemble the native byte stream.  A failure at either stage
propagates and nothing after it happens (in the source the exception
aborts the function before the corresponding file is written). -/
def bulk_insert_bcp_native_core (schema : List (String × ColInfo))
    (df : List (String × ColumnData)) :
    Except PyError ((List FieldDef × List ColumnDef) × List Nat) :=
  match generate_bcp_xml schema with
  | .error e => .error e
  | .ok desc =>
      match convert_columns df schema with
      | .error e => .error e
      | .ok cols => .ok (desc, build_payload cols)

/-! ### Helper lemmas -/

theorem leBytes_length (w : Nat) : ∀ n, (leBytes w n).length = w := by
  induction w with
  | zero => intro n; rfl
  | succ w ih => intro n; simp [leBytes, ih]

theorem leBytes_take (w k : Nat) : ∀ n, (leBytes (w + k) n).take w = leBytes w n := by
  induction w with
  | zero => intro n; simp [leBytes]
  | succ w ih =>
      intro n
      have h : w + 1 + k = (w + k) + 1 := by omega
      rw [h]
      simp [leBytes, ih]

theorem mapE_ok_len {α β : Type} (f : α → Except PyError β)
    (hf : ∀ x, ∃ y, f x = .ok y) :
    ∀ xs : List α, ∃ ys, mapE f xs = .ok ys ∧ ys.length = xs.length := by
  intro xs
  induction xs with
  | nil => exact ⟨[], rfl, rfl⟩
  | cons x xs ih =>
      obtain ⟨y, hy⟩ := hf x
      obtain ⟨ys, hys, hlen⟩ := ih
      refine ⟨y :: ys, ?_, by simp [hlen]⟩
      rw [mapE, hy, hys]
      rfl

/-! ### Claim theorems -/

/-- Claim C2: for every supported type tag, encoding a null value
yields exactly the null-sentinel bytes with zero payload bytes —
`0xFF` for the one-byte-prefix fixed-width family, `0xFF 0xFF` for
VARCHAR and NVARCHAR, and `0xFF 0xFF 0xFF 0xFF` (little-endian −1)
for GEOMETRY.  In every converter the `pd.isna` test is the first
thing done with the value, before any coercion, which is why these
records are produced whatever scalar kind the column holds. -/
theorem c2_null_sentinels :
    convert_tinyint_val none = .ok [0xFF] ∧
    convert_smallint_val none = .ok [0xFF] ∧
    convert_int_val none = .ok [0xFF] ∧
    convert_bigint_val none = .ok [0xFF] ∧
    convert_bit_val none = .ok [0xFF] ∧
    convert_real_val none = .ok [0xFF] ∧
    convert_float_val none = .ok [0xFF] ∧
    convert_date_val none = .ok [0xFF] ∧
    convert_datetime2_val none = .ok [0xFF] ∧
    convert_varchar_val none = .ok [0xFF, 0xFF] ∧
    convert_nvarchar_val none = .ok [0xFF, 0xFF] ∧
    convert_geometry_val none = .ok [0xFF, 0xFF, 0xFF, 0xFF] :=
  ⟨rfl, rfl, rfl, rfl, rfl, rfl, rfl, rfl, rfl, rfl, rfl, rfl⟩

/-- Claim C5: for every non-null date the DATE encoder emits prefix
byte `0x03` followed by the low three bytes of the 4-byte
little-endian day count since 0001-01-01 — which are exactly the
3-byte little-endian rendering of that count — and the date
0001-01-01 itself encodes as `03 00 00 00`. -/
theorem c5_date_encoding :
    (∀ dt : PyDate,
      convert_date_val (some dt) =
        .ok (0x03 :: leBytes 3 (toOrdinal dt.year dt.month dt.day - 1))) ∧
    convert_date_val (some ⟨1, 1, 1⟩) = .ok [0x03, 0x00, 0x00, 0x00] := by
  constructor
  · intro dt
    have h := leBytes_take 3 1 (toOrdinal dt.year dt.month dt.day - 1)
    simp [convert_date_val, h]
  · rfl

/-- Claim C7: the DATETIME2 converter rejects every requested scale
other than 7 with the `NotImplementedError` guard before looking at
any value of the series (the error does not depend on the series);
with scale 7 it proceeds and encodes every value. -/
theorem c7_datetime2_scale_guard (series : List (Option PyDateTime)) (scale : Nat) :
    (scale ≠ 7 →
      convert_datetime2_to_bcp series scale =
        .error (.notImplementedError "convert_datetime2_to_bcp currently assumes DATETIME2(7).")) ∧
    ∃ records, convert_datetime2_to_bcp series 7 = .ok records ∧
      records.length = series.length := by
  constructor
  · intro hscale
    simp [convert_datetime2_to_bcp, hscale]
  · have htotal : ∀ v : Option PyDateTime, ∃ r, convert_datetime2_val v = .ok r := by
      intro v
      cases v with
      | none => exact ⟨_, rfl⟩
      | some ts => exact ⟨_, rfl⟩
    obtain ⟨ys, hys, hlen⟩ := mapE_ok_len convert_datetime2_val htotal series
    exact ⟨ys, by simpa [convert_datetime2_to_bcp] using hys, hlen⟩

/-- Witness for C7 at a concrete rejected scale and a concrete
series. -/
theorem c7_witness :
    convert_datetime2_to_bcp [some ⟨2024, 3, 1, 0⟩] 3 =
      .error (.notImplementedError "convert_datetime2_to_bcp currently assumes DATETIME2(7).") :=
  (c7_datetime2_scale_guard [some ⟨2024, 3, 1, 0⟩] 3).1 (by decide)

/-- Claim C6: every encoder of the fixed-width native family emits,
for a non-null in-range value, exactly one prefix byte whose value is
the payload byte width (between 1 and 8) followed by the little-endian
payload of that width; in particular `encode(INT, 5)` is
`04 05 00 00 00`.  The floats are shown through their IEEE-754 bit
patterns, whose `struct.pack` bytes are the little-endian rendering of
the pattern. -/
theorem c6_fixed_width_records :
    (∀ v : Int, 0 ≤ v → v < 2 ^ 8 →
      convert_tinyint_val (some v) = .ok (0x01 :: leBytes 1 v.toNat) ∧
        (leBytes 1 v.toNat).length = 0x01) ∧
    (∀ v : Int, -(2 ^ 15) ≤ v → v < 2 ^ 15 →
      convert_smallint_val (some v) = .ok (0x02 :: packIntLE 2 v) ∧
        (packIntLE 2 v).length = 0x02) ∧
    (∀ v : Int, -(2 ^ 31) ≤ v → v < 2 ^ 31 →
      convert_int_val (some v) = .ok (0x04 :: packIntLE 4 v) ∧
        (packIntLE 4 v).length = 0x04) ∧
    (∀ v : Int, -(2 ^ 63) ≤ v → v < 2 ^ 63 →
      convert_bigint_val (some v) = .ok (0x08 :: packIntLE 8 v) ∧
        (packIntLE 8 v).length = 0x08) ∧
    (∀ b : Bool,
      convert_bit_val (some b) = .ok (0x01 :: [if b then 1 else 0])) ∧
    (∀ bits : Nat,
      convert_real_val (some bits) = .ok (0x04 :: leBytes 4 bits) ∧
        (leBytes 4 bits).length = 0x04) ∧
    (∀ bits : Nat,
      convert_float_val (some bits) = .ok (0x08 :: leBytes 8 bits) ∧
        (leBytes 8 bits).length = 0x08) ∧
    (∀ dt : PyDate, ∃ payload,
      convert_date_val (some dt) = .ok (0x03 :: payload) ∧ payload.length = 0x03) ∧
    (∀ ts : PyDateTime, ∃ payload,
      convert_datetime2_val (some ts) = .ok (0x08 :: payload) ∧ payload.length = 0x08) ∧
    convert_int_val (some 5) = .ok [0x04, 0x05, 0x00, 0x00, 0x00] := by
  refine ⟨?_, ?_, ?_, ?_, ?_, ?_, ?_, ?_, ?_, rfl⟩
  · intro v h1 h2
    refine ⟨?_, leBytes_length 1 _⟩
    simp only [convert_tinyint_val]
    rw [if_pos ⟨h1, h2⟩]
  · intro v h1 h2
    refine ⟨?_, by simp [packIntLE, leBytes_length]⟩
    simp only [convert_smallint_val]
    rw [if_pos ⟨h1, h2⟩]
  · intro v h1 h2
    refine ⟨?_, by simp [packIntLE, leBytes_length]⟩
    simp only [convert_int_val]
    rw [if_pos ⟨h1, h2⟩]
  · intro v h1 h2
    refine ⟨?_, by simp [packIntLE, leBytes_length]⟩
    simp only [convert_bigint_val]
    rw [if_pos ⟨h1, h2⟩]
  · intro b; rfl
  · intro bits; exact ⟨rfl, leBytes_length 4 _⟩
  · intro bits; exact ⟨rfl, leBytes_length 8 _⟩
  · intro dt
    refine ⟨_, rfl, ?_⟩
    simp [leBytes_length]
  · intro ts
    refine ⟨_, rfl, ?_⟩
    simp [leBytes_length]

/-- Witness for C6 at concrete in-range values of each hypothesis-
carrying family member. -/
theorem c6_witness :
    convert_tinyint_val (some 7) = .ok (0x01 :: leBytes 1 (7 : Int).toNat) ∧
    convert_smallint_val (some (-2)) = .ok (0x02 :: packIntLE 2 (-2)) ∧
    convert_int_val (some 5) = .ok (0x04 :: packIntLE 4 5) ∧
    convert_bigint_val (some 9) = .ok (0x08 :: packIntLE 8 9) := by
  have h := c6_fixed_width_records
  exact ⟨(h.1 7 (by decide) (by decide)).1,
    (h.2.1 (-2) (by decide) (by decide)).1,
    (h.2.2.1 5 (by decide) (by decide)).1,
    (h.2.2.2.1 9 (by decide) (by decide)).1⟩

theorem pack_u16_ok (m : Nat) (p : List Nat) (h : pack_u16 m = .ok p) :
    p = leBytes 2 m := by
  simp only [pack_u16] at h
  by_cases h16 : m < 2 ^ 16
  · rw [if_pos h16] at h
    cases h
    rfl
  · rw [if_neg h16] at h
    simp at h

theorem latin1EncodeChars_length :
    ∀ (cs : List Char) (bs : List Nat),
      latin1EncodeChars cs = .ok bs → bs.length = cs.length := by
  intro cs
  induction cs with
  | nil =>
      intro bs h
      simp only [latin1EncodeChars] at h
      cases h
      rfl
  | cons c cs ih =>
      intro bs h
      simp only [latin1EncodeChars] at h
      by_cases hc : c.toNat < 256
      · rw [if_pos hc] at h
        cases hrec : latin1EncodeChars cs with
        | error e => rw [hrec] at h; simp at h
        | ok bs0 =>
            rw [hrec] at h
            cases h
            simp [ih bs0 hrec]
      · rw [if_neg hc] at h
        simp at h

theorem natDigitsAux_ne_nil (fuel n : Nat) : natDigitsAux (fuel + 1) n ≠ [] := by
  simp only [natDigitsAux]
  split
  · simp
  · simp

theorem pyStrOfInt_data_ne_nil (n : Int) : (pyStrOfInt n).data ≠ [] := by
  simp only [pyStrOfInt]
  split
  · simp
  · simp [natDigits, natDigitsAux_ne_nil]

theorem utf16leChar_ne_nil (c : Char) : utf16leChar c ≠ [] := by
  simp only [utf16leChar]
  split
  · simp
  · simp

theorem utf16leEncodeChars_pos (c : Char) (cs : List Char) :
    0 < (utf16leEncodeChars (c :: cs)).length := by
  simp only [utf16leEncodeChars, List.map_cons, List.flatten_cons, List.length_append]
  have := utf16leChar_ne_nil c
  have hpos : 0 < (utf16leChar c).length := List.length_pos.mpr this
  omega

/-- Claim C4: for every non-null string, VARCHAR and NVARCHAR emit a
2-byte little-endian prefix holding the byte length of the encoded
payload followed by the payload bytes (latin-1 for VARCHAR, UTF-16LE
for NVARCHAR); the empty string gives the prefix `00 00` with no
payload, which is distinct from the null record `FF FF`; and
`encode(NVARCHAR, "hi")` is `04 00 68 00 69 00`. -/
theorem c4_char_records :
    (∀ (s : String) (bs : List Nat), s.data ≠ [] →
      latin1EncodeChars s.data = .ok bs → bs.length < 2 ^ 16 →
      convert_varchar_val (some (.str s)) = .ok (leBytes 2 bs.length ++ bs)) ∧
    (∀ s : String, s.data ≠ [] → (utf16leEncodeChars s.data).length < 2 ^ 16 →
      convert_nvarchar_val (some (.str s)) =
        .ok (leBytes 2 (utf16leEncodeChars s.data).length ++ utf16leEncodeChars s.data)) ∧
    convert_varchar_val (some (.str "")) = .ok [0x00, 0x00] ∧
    convert_nvarchar_val (some (.str "")) = .ok [0x00, 0x00] ∧
    convert_varchar_val none = .ok [0xFF, 0xFF] ∧
    ([0x00, 0x00] : List Nat) ≠ [0xFF, 0xFF] ∧
    convert_nvarchar_val (some (.str "hi")) = .ok [0x04, 0x00, 0x68, 0x00, 0x69, 0x00] := by
  refine ⟨?_, ?_, rfl, rfl, rfl, by decide, rfl⟩
  · intro s bs hne henc hlen
    have hpack : pack_u16 bs.length = .ok (leBytes 2 bs.length) := by
      simp only [pack_u16]
      rw [if_pos hlen]
    simp only [convert_varchar_val, pyStr]
    rw [if_neg (fun h0 => hne (List.length_eq_zero.mp h0))]
    simp [henc, hpack]
  · intro s hne hlen
    have hpack : pack_u16 (utf16leEncodeChars s.data).length =
        .ok (leBytes 2 (utf16leEncodeChars s.data).length) := by
      simp only [pack_u16]
      rw [if_pos hlen]
    simp only [convert_nvarchar_val, pyStr]
    rw [if_neg (fun h0 => hne (List.length_eq_zero.mp h0))]
    simp [hpack]

/-- Witness for C4 at the string hi for both encoders. -/
theorem c4_witness :
    convert_varchar_val (some (.str "hi")) =
      .ok (leBytes 2 (List.length [0x68, 0x69]) ++ [0x68, 0x69]) ∧
    convert_nvarchar_val (some (.str "hi")) =
      .ok (leBytes 2 (utf16leEncodeChars "hi".data).length ++ utf16leEncodeChars "hi".data) := by
  have h := c4_char_records
  exact ⟨h.1 "hi" [0x68, 0x69] (by decide) rfl (by decide),
    h.2.1 "hi" (by decide) (by decide)⟩

/-- Claim C9: the geometry encoder accepts raw bytes and hexadecimal
strings (optional 0x/0X marker, whitespace tolerated), emitting a
4-byte little-endian length prefix before the decoded bytes; other
representations fail with a `TypeError` naming the received type, and
strings that do not decode as hexadecimal fail with the `ValueError`
of the malformed-input path. -/
theorem c9_geometry_inputs :
    (∀ b : List Nat, convert_geometry_val (some (.bytes b)) = .ok (leBytes 4 b.length ++ b)) ∧
    (∀ (s : String) (payload : List Nat),
      fromHexChars (removeWhitespace (dropHexMarker (pyStrip s.data))) = some payload →
      convert_geometry_val (some (.str s)) = .ok (leBytes 4 payload.length ++ payload)) ∧
    (∀ s : String,
      fromHexChars (removeWhitespace (dropHexMarker (pyStrip s.data))) = none →
      convert_geometry_val (some (.str s)) =
        .error (.valueError "Invalid geometry value. Expected WKB in hex or raw bytes.")) ∧
    (∀ t : String, convert_geometry_val (some (.other t)) =
      .error (.typeError
        ("Invalid type for geometry. Expected bytes/bytearray/memoryview or hex string. Received: "
          ++ t))) ∧
    convert_geometry_val (some (.str "0xE6 10 00")) =
      .ok [0x03, 0x00, 0x00, 0x00, 0xE6, 0x10, 0x00] ∧
    convert_geometry_val (some (.str "POINT (1 2)")) =
      .error (.valueError "Invalid geometry value. Expected WKB in hex or raw bytes.") := by
  refine ⟨fun b => rfl, ?_, ?_, fun t => rfl, rfl, rfl⟩
  · intro s payload h
    simp only [convert_geometry_val]
    simp [h]
  · intro s h
    simp only [convert_geometry_val]
    simp [h]

/-- Witness for C9 at a concrete bare hexadecimal string. -/
theorem c9_witness :
    convert_geometry_val (some (.str "E61000")) =
      .ok (leBytes 4 (List.length [0xE6, 0x10, 0x00]) ++ [0xE6, 0x10, 0x00]) :=
  c9_geometry_inputs.2.1 "E61000" [0xE6, 0x10, 0x00] rfl

/-- Claim C10: both character encoders first coerce any non-null value
to text with `str()` and encode that rendering — encoding a value is
the same as encoding the string `str(value)`, the integer 5 encodes as
the text 5, and an integer (whose decimal rendering is never the empty
string) never produces the empty-string record `00 00`. -/
theorem c10_nonstring_coercion :
    (∀ v : PyVal,
      convert_varchar_val (some v) = convert_varchar_val (some (.str (pyStr v))) ∧
      convert_nvarchar_val (some v) = convert_nvarchar_val (some (.str (pyStr v)))) ∧
    convert_varchar_val (some (.int 5)) = .ok [0x01, 0x00, 0x35] ∧
    convert_nvarchar_val (some (.int 5)) = .ok [0x02, 0x00, 0x35, 0x00] ∧
    (∀ n : Int,
      convert_varchar_val (some (.int n)) ≠ .ok [0x00, 0x00] ∧
      convert_nvarchar_val (some (.int n)) ≠ .ok [0x00, 0x00]) := by
  refine ⟨?_, rfl, rfl, ?_⟩
  · intro v
    cases v with
    | str s => exact ⟨rfl, rfl⟩
    | int n => exact ⟨rfl, rfl⟩
  · intro n
    have hne := pyStrOfInt_data_ne_nil n
    have hpos : 0 < (pyStrOfInt n).data.length := List.length_pos.mpr hne
    constructor
    · simp only [convert_varchar_val, pyStr]
      rw [if_neg (fun h0 => hne (List.length_eq_zero.mp h0))]
      cases henc : latin1EncodeChars (pyStrOfInt n).data with
      | error e => simp [henc]
      | ok bs =>
          have hbs : bs.length = (pyStrOfInt n).data.length :=
            latin1EncodeChars_length _ _ henc
          cases hp : pack_u16 bs.length with
          | error e => simp [henc, hp]
          | ok pfx =>
              have hpfx := pack_u16_ok _ _ hp
              simp only [henc, hp, hpfx]
              intro heq
              have hlen := congrArg List.length (Except.ok.inj heq)
              rw [List.length_append, leBytes_length] at hlen
              simp only [List.length_cons, List.length_nil] at hlen
              omega
    · simp only [convert_nvarchar_val, pyStr]
      rw [if_neg (fun h0 => hne (List.length_eq_zero.mp h0))]
      cases hdata : (pyStrOfInt n).data with
      | nil => exact absurd hdata hne
      | cons c cs =>
          have hupos := utf16leEncodeChars_pos c cs
          cases hp : pack_u16 (utf16leEncodeChars (c :: cs)).length with
          | error e => simp [hdata, hp]
          | ok pfx =>
              have hpfx := pack_u16_ok _ _ hp
              simp only [hdata, hp, hpfx]
              intro heq
              have hlen := congrArg List.length (Except.ok.inj heq)
              rw [List.length_append, leBytes_length] at hlen
              simp only [List.length_cons, List.length_nil] at hlen
              omega

/-- Witness for C10: the per-value coercion equations applied at a
concrete non-string value and the never-empty-record fact at a
concrete integer. -/
theorem c10_witness :
    convert_varchar_val (some (.int 42)) =
      convert_varchar_val (some (.str (pyStr (.int 42)))) ∧
    convert_varchar_val (some (.int 42)) ≠ .ok [0x00, 0x00] := by
  have h := c10_nonstring_coercion
  exact ⟨(h.1 (.int 42)).1, (h.2.2.2 42).1⟩

theorem generate_bcp_xml_loop_error (collation : String) :
    ∀ (schema : List (String × ColInfo)) (fid : Nat),
      (∃ p ∈ schema,
        BCP_NATIVE_TYPE_MAP.lookup (pyUpper p.2.type_) = none ∨
          ((pyUpper p.2.type_ = "VARCHAR" ∨ pyUpper p.2.type_ = "NVARCHAR") ∧
            p.2.max_length = none)) →
      ∃ e, generate_bcp_xml_loop collation schema fid = .error e := by
  intro schema
  induction schema with
  | nil =>
      intro fid h
      simp at h
  | cons p rest ih =>
      intro fid h
      obtain ⟨colName, info⟩ := p
      cases hlk : BCP_NATIVE_TYPE_MAP.lookup (pyUpper info.type_) with
      | none =>
          refine ⟨.valueError ("Unsupported SQL type for BCP: " ++ pyUpper info.type_), ?_⟩
          simp only [generate_bcp_xml_loop, hlk]
      | some m =>
          cases hmk : mkFieldDef fid colName (pyUpper info.type_) m info.max_length collation with
          | error e =>
              refine ⟨e, ?_⟩
              simp only [generate_bcp_xml_loop, hlk, hmk]
          | ok f =>
              rcases h with ⟨q, hq, hbad⟩
              rcases List.mem_cons.mp hq with heq | hq2
              · exfalso
                subst heq
                rcases hbad with hnone | ⟨hchar, hml⟩
                · rw [hlk] at hnone
                  exact Option.noConfusion hnone
                · rcases hchar with hv | hv
                  · rw [hv] at hlk hmk
                    have hm : m = ⟨"CharPrefix", 2, "SQLVARYCHAR"⟩ := by
                      have hC : BCP_NATIVE_TYPE_MAP.lookup "VARCHAR" =
                          some (⟨"CharPrefix", 2, "SQLVARYCHAR"⟩ : TypeMapping) := rfl
                      rw [hC] at hlk
                      exact (Option.some.inj hlk).symm
                    subst hm
                    rw [hml] at hmk
                    have hval : mkFieldDef fid colName "VARCHAR"
                        (⟨"CharPrefix", 2, "SQLVARYCHAR"⟩ : TypeMapping) none collation =
                        .error (.valueError
                          ("max_length is required for VARCHAR column " ++ colName)) := rfl
                    rw [hval] at hmk
                    simp at hmk
                  · rw [hv] at hlk hmk
                    have hm : m = ⟨"NCharPrefix", 2, "SQLNVARCHAR"⟩ := by
                      have hC : BCP_NATIVE_TYPE_MAP.lookup "NVARCHAR" =
                          some (⟨"NCharPrefix", 2, "SQLNVARCHAR"⟩ : TypeMapping) := rfl
                      rw [hC] at hlk
                      exact (Option.some.inj hlk).symm
                    subst hm
                    rw [hml] at hmk
                    have hval : mkFieldDef fid colName "NVARCHAR"
                        (⟨"NCharPrefix", 2, "SQLNVARCHAR"⟩ : TypeMapping) none collation =
                        .error (.valueError
                          ("max_length is required for NVARCHAR column " ++ colName)) := rfl
                    rw [hval] at hmk
                    simp at hmk
              · obtain ⟨e, he⟩ := ih (fid + 1) ⟨q, hq2, hbad⟩
                refine ⟨e, ?_⟩
                simp only [generate_bcp_xml_loop, hlk, hmk, he]

/-- Claim C8: a schema containing a type tag the descriptor generator
does not support, or a character (VARCHAR/NVARCHAR) column without a
max length, makes `generate_bcp_xml` raise a `ValueError`, so the
caller gets no descriptor at all; and `bulk_insert_bcp_native`, which
generates the descriptor before converting any column, then fails with
that same error whatever the DataFrame holds — no payload is produced
and no row is touched. -/
theorem c8_schema_failfast (schema : List (String × ColInfo)) :
    ((∃ p ∈ schema, BCP_NATIVE_TYPE_MAP.lookup (pyUpper p.2.type_) = none) →
      ∃ e, generate_bcp_xml schema = .error e ∧
        ∀ df, bulk_insert_bcp_native_core schema df = .error e) ∧
    ((∃ p ∈ schema, (pyUpper p.2.type_ = "VARCHAR" ∨ pyUpper p.2.type_ = "NVARCHAR") ∧
        p.2.max_length = none) →
      ∃ e, generate_bcp_xml schema = .error e ∧
        ∀ df, bulk_insert_bcp_native_core schema df = .error e) := by
  have step : (∃ p ∈ schema,
      BCP_NATIVE_TYPE_MAP.lookup (pyUpper p.2.type_) = none ∨
        ((pyUpper p.2.type_ = "VARCHAR" ∨ pyUpper p.2.type_ = "NVARCHAR") ∧
          p.2.max_length = none)) →
      ∃ e, generate_bcp_xml schema = .error e ∧
        ∀ df, bulk_insert_bcp_native_core schema df = .error e := by
    intro h
    obtain ⟨e, he⟩ := generate_bcp_xml_loop_error DEFAULT_COLLATION schema 1 h
    have he2 : generate_bcp_xml schema = .error e := he
    refine ⟨e, he2, fun df => ?_⟩
    simp only [bulk_insert_bcp_native_core, he2]
  constructor
  · rintro ⟨p, hp, hbad⟩
    exact step ⟨p, hp, Or.inl hbad⟩
  · rintro ⟨p, hp, hbad⟩
    exact step ⟨p, hp, Or.inr hbad⟩

/-- Witness for C8: an unsupported tag and a character column with no
max length, each in a concrete one-column schema. -/
theorem c8_witness :
    (∃ e, generate_bcp_xml [("d", ⟨"DECIMAL", none⟩)] = .error e ∧
      ∀ df, bulk_insert_bcp_native_core [("d", ⟨"DECIMAL", none⟩)] df = .error e) ∧
    (∃ e, generate_bcp_xml [("v", ⟨"VARCHAR", none⟩)] = .error e ∧
      ∀ df, bulk_insert_bcp_native_core [("v", ⟨"VARCHAR", none⟩)] df = .error e) :=
  ⟨(c8_schema_failfast _).1 ⟨("d", ⟨"DECIMAL", none⟩), by simp, rfl⟩,
   (c8_schema_failfast _).2 ⟨("v", ⟨"VARCHAR", none⟩), by simp, Or.inl rfl, rfl⟩⟩

/-- Total byte length of a family of per-column record sequences: the
sum, over every column and every record in it, of the record length —
the "sum of the byte lengths of all individual EncodedFields". -/
def totalLen (cols : List (List (List Nat))) : Nat :=
  (cols.map (fun c => (c.map List.length).sum)).sum

theorem filterMap_head_eq_map {α : Type} (d : α) :
    ∀ cols : List (List α), (∀ c ∈ cols, c ≠ []) →
      cols.filterMap List.head? = cols.map (fun c => c.getD 0 d) := by
  intro cols
  induction cols with
  | nil => intro _; rfl
  | cons c rest ih =>
      intro h
      cases c with
      | nil => exact absurd rfl (h [] (by simp))
      | cons a t =>
          simp only [List.filterMap_cons, List.head?, List.map_cons, List.getD_cons_zero]
          rw [ih (fun x hx => h x (List.mem_cons_of_mem _ hx))]

theorem getD_succ_tail {α : Type} (c : List α) (i : Nat) (d : α) :
    c.getD (i + 1) d = c.tail.getD i d := by
  cases c with
  | nil => rfl
  | cons a t => simp [List.getD_cons_succ]

theorem hstack_ravel_rowMajor :
    ∀ (n : Nat) (cols : List (List (List Nat))), (∀ c ∈ cols, c.length = n) →
      hstack_ravel n cols =
        ((List.range n).map (fun i => cols.map (fun c => c.getD i []))).flatten := by
  intro n
  induction n with
  | zero =>
      intro cols _
      simp [hstack_ravel]
  | succ n ih =>
      intro cols h
      have hne : ∀ c ∈ cols, c ≠ [] := by
        intro c hc he
        have hlen := h c hc
        rw [he] at hlen
        simp at hlen
      have htails : ∀ c ∈ cols.map List.tail, c.length = n := by
        intro c hc
        obtain ⟨c0, hc0, rfl⟩ := List.mem_map.mp hc
        have := h c0 hc0
        simp [List.length_tail, this]
      simp only [hstack_ravel]
      rw [filterMap_head_eq_map ([] : List Nat) cols hne, ih _ htails,
        List.range_succ_eq_map]
      simp only [List.map_cons, List.flatten_cons, List.map_map]
      congr 1
      congr 1
      apply List.map_congr_left
      intro i _
      simp only [Function.comp_apply, List.map_map]
      apply List.map_congr_left
      intro c _
      simp only [Function.comp_apply]
      exact (getD_succ_tail c i []).symm

theorem totalLen_head_tail (cols : List (List (List Nat))) (h : ∀ c ∈ cols, c ≠ []) :
    totalLen cols =
      ((cols.map (fun c => c.getD 0 [])).map List.length).sum + totalLen (cols.map List.tail) := by
  induction cols with
  | nil => simp [totalLen]
  | cons c rest ih =>
      cases c with
      | nil => exact absurd rfl (h [] (by simp))
      | cons a t =>
          have hrest := ih (fun x hx => h x (List.mem_cons_of_mem _ hx))
          simp only [totalLen, List.map_cons, List.sum_cons, List.getD_cons_zero,
            List.tail_cons] at hrest ⊢
          omega

theorem hstack_ravel_length :
    ∀ (n : Nat) (cols : List (List (List Nat))), (∀ c ∈ cols, c.length = n) →
      ((hstack_ravel n cols).flatten).length = totalLen cols := by
  intro n
  induction n with
  | zero =>
      intro cols h
      have hz : ∀ c ∈ cols, c = ([] : List (List Nat)) :=
        fun c hc => List.length_eq_zero.mp (h c hc)
      have : totalLen cols = 0 := by
        apply List.sum_eq_zero
        intro x hx
        obtain ⟨c, hc, rfl⟩ := List.mem_map.mp hx
        rw [hz c hc]
        rfl
      simp [hstack_ravel, this]
  | succ n ih =>
      intro cols h
      have hne : ∀ c ∈ cols, c ≠ [] := by
        intro c hc he
        have hlen := h c hc
        rw [he] at hlen
        simp at hlen
      have htails : ∀ c ∈ cols.map List.tail, c.length = n := by
        intro c hc
        obtain ⟨c0, hc0, rfl⟩ := List.mem_map.mp hc
        have := h c0 hc0
        simp [List.length_tail, this]
      simp only [hstack_ravel]
      rw [List.flatten_append, List.length_append, ih _ htails,
        filterMap_head_eq_map ([] : List Nat) cols hne, List.length_flatten,
        totalLen_head_tail cols hne]

/-- Claim C3: when every per-column encoding succeeds, the assembled
payload is the row-major concatenation of the encoded fields — for
each row index, column 1 field, column 2 field, … in schema order,
rows in order — with nothing inserted between records, and its byte
length is the sum of the lengths of all encoded fields; moreover a
successful run of the bulk-insert core produces exactly
`build_payload` of the converted columns. -/
theorem c3_row_major_payload (cols : List (List (List Nat))) (n : Nat)
    (hn : ∀ c ∈ cols, c.length = n) (hcols : cols ≠ []) :
    build_payload cols =
      (((List.range n).map (fun i => cols.map (fun c => c.getD i []))).flatten).flatten ∧
    (build_payload cols).length = totalLen cols ∧
    (∀ (schema : List (String × ColInfo)) (df : List (String × ColumnData)) desc payload,
      bulk_insert_bcp_native_core schema df = .ok (desc, payload) →
      ∃ colsArr, convert_columns df schema = .ok colsArr ∧ payload = build_payload colsArr) := by
  have hhead : (cols.headD []).length = n := by
    cases cols with
    | nil => exact absurd rfl hcols
    | cons c rest => exact hn c (by simp)
  have hbuild : build_payload cols = (hstack_ravel n cols).flatten := by
    simp only [build_payload, hhead]
  refine ⟨?_, ?_, ?_⟩
  · rw [hbuild, hstack_ravel_rowMajor n cols hn]
  · rw [hbuild, hstack_ravel_length n cols hn]
  · intro schema df desc payload hok
    simp only [bulk_insert_bcp_native_core] at hok
    cases hx : generate_bcp_xml schema with
    | error e => rw [hx] at hok; simp at hok
    | ok d =>
        rw [hx] at hok
        cases hc : convert_columns df schema with
        | error e => rw [hc] at hok; simp at hok
        | ok colsArr =>
            rw [hc] at hok
            simp only [Except.ok.injEq, Prod.mk.injEq] at hok
            exact ⟨colsArr, rfl, hok.2.symm⟩

/-- Witness for C3 at a concrete two-column, two-row family of encoded
fields of unequal widths. -/
theorem c3_witness :
    build_payload [[[1, 2], [3]], [[4], [5, 6]]] =
      (((List.range 2).map
        (fun i => [[[1, 2], [3]], [[4], [5, 6]]].map (fun c => c.getD i []))).flatten).flatten ∧
    (build_payload [[[1, 2], [3]], [[4], [5, 6]]]).length =
      totalLen [[[1, 2], [3]], [[4], [5, 6]]] := by
  have h := c3_row_major_payload [[[1, 2], [3]], [[4], [5, 6]]] 2 (by decide) (by decide)
  exact ⟨h.1, h.2.1⟩

/-- Claim C1 is violated at the GEOMETRY tag: `BCP_CONVERTER_MAP` has
a GEOMETRY encoder, and that encoder writes a 4-byte length prefix
(which its own docstring says the descriptor FIELD must declare as
PREFIX_LENGTH=4 with xsi:type SQLUDT), but `BCP_NATIVE_TYPE_MAP` has
no GEOMETRY entry at all, so the descriptor generator rejects every
schema with a GEOMETRY column instead of declaring the matching
4-byte prefix.  For tags the descriptor map does know, the declared
widths are 1 (native family) and 2 (VARCHAR/NVARCHAR), matching the
records proved in the C4 and C6 theorems. -/
theorem c1_geometry_descriptor_gap :
    BCP_NATIVE_TYPE_MAP.lookup "GEOMETRY" = none ∧
    BCP_CONVERTER_MAP_keys.contains "GEOMETRY" = true ∧
    generate_bcp_xml [("geom_col", ⟨"GEOMETRY", none⟩)] =
      .error (.valueError "Unsupported SQL type for BCP: GEOMETRY") ∧
    convert_geometry_val (some (.bytes [0xE6])) =
      .ok [0x01, 0x00, 0x00, 0x00, 0xE6] ∧
    BCP_NATIVE_TYPE_MAP.lookup "INT" =
      some ⟨"NativePrefix", 1, "SQLINT"⟩ ∧
    BCP_NATIVE_TYPE_MAP.lookup "VARCHAR" =
      some ⟨"CharPrefix", 2, "SQLVARYCHAR"⟩ ∧
    BCP_NATIVE_TYPE_MAP.lookup "NVARCHAR" =
      some ⟨"NCharPrefix", 2, "SQLNVARCHAR"⟩ :=
  ⟨rfl, rfl, rfl, rfl, rfl, rfl, rfl⟩

end BcpUtils
